import Mathlib

/-!
Verification development for the Flax expression core
(`src/ast.rs` and `src/interpreter.rs`): the AST of expressions,
the runtime value model `Obj`, and the tree-walking evaluator.

Rust `f64` is embedded abstractly: a `FloatModel` packages the 64-bit
float carrier together with the exact operations the interpreter uses
(`+`, `-`, `*`, `/`, `-1.0 *`, `==`, `<`, `<=`, `>`, `>=`, `Display`
rendering, and `str::parse::<f64>`).  Every semantic theorem is proved
for an arbitrary model; a small executable instance `QF` (rationals
plus a NaN element, mirroring the IEEE-754 behaviours the interpreter
relies on: `NaN == NaN` is false, `"NaN"` parses to NaN) is used to
evaluate the development on concrete inputs.

Rust `panic!` aborts the process, which is observably different from
returning `Err(RuntimeError)`; evaluation results are therefore
three-valued (`ok` / `err` / `abort`).
-/

namespace Flax

/-- Modelled from the spec: the token kinds of the external lexer that the
interpreter dispatches on (`TokenType` lives in the out-of-scope lexer
module).  `Other` stands for every remaining token kind, reaching the
interpreter's catch-all `_` branches. -/
inductive TokenType where
  | Minus
  | Plus
  | Star
  | Slash
  | PlusPlus
  | EqualEqual
  | BangEqual
  | Less
  | LessEqual
  | Greater
  | GreaterEqual
  | Bang
  | Other
deriving DecidableEq

/-- Modelled from the spec: a token is a tagged lexeme `{kind, text, line}`
(spec section 3); the interpreter only reads `token_type`, `lexeme` and
`line`. -/
structure Token where
  token_type : TokenType
  lexeme : String
  line : Nat
deriving DecidableEq

/-- Modelled from the spec: `RuntimeError` (from the out-of-scope `errors`
module) is `{offending_lexeme, message, line}` (spec section 6), built by
`RuntimeError::new(lexeme, message, line)`. -/
structure RuntimeError where
  lexeme : String
  message : String
  line : Nat
deriving DecidableEq

/-- The runtime value type `Obj` of `interpreter.rs`, parametrised by the
float carrier `F` standing for Rust `f64`. -/
inductive Obj (F : Type) where
  | BOOL (b : Bool)
  | STRING (s : String)
  | NUMBER (v : F)
  | Nil
deriving DecidableEq

/-- The kind (tag) of a runtime value; used to state cross-kind claims. -/
inductive ObjKind where
  | kBool
  | kString
  | kNumber
  | kNil
deriving DecidableEq

/-- The kind of an `Obj`. -/
def Obj.kind {F : Type} : Obj F → ObjKind
  | .BOOL _ => .kBool
  | .STRING _ => .kString
  | .NUMBER _ => .kNumber
  | .Nil => .kNil

/-- Result of evaluating an expression: `ok` is Rust `Ok(Obj)`, `err` is
`Err(RuntimeError)`, and `abort` is a `panic!` with the given message
(a process abort, not a returned value). -/
inductive RtResult (F : Type) where
  | ok (o : Obj F)
  | err (e : RuntimeError)
  | abort (msg : String)
deriving DecidableEq

/-- Propagation of failure, as Rust's `?` on `Result` (with `abort`
propagating because a panic unwinds past the caller). -/
def RtResult.bind {F : Type} (x : RtResult F) (f : Obj F → RtResult F) : RtResult F :=
  match x with
  | .ok o => f o
  | .err e => .err e
  | .abort m => .abort m

/-- The operations of Rust `f64` used by the interpreter, abstracted over
the carrier: IEEE-754 arithmetic, the literal `-1.0`, the comparison
operators `==`, `<`, `<=`, `>`, `>=` (each a partial-order test returning
`false` on NaN), the `Display`/`to_string` rendering, and
`str::parse::<f64>`. -/
structure FloatModel where
  F : Type
  deq : DecidableEq F
  add : F → F → F
  sub : F → F → F
  mul : F → F → F
  div : F → F → F
  negOne : F
  beq : F → F → Bool
  blt : F → F → Bool
  ble : F → F → Bool
  bgt : F → F → Bool
  bge : F → F → Bool
  render : F → String
  parse : String → Option F

/-- The expression AST of `ast.rs` restricted to the four variants the
interpreter's `evaluate!` macro handles (`L`iteral, `U`nary, `B`inary,
`G`rouping); the node structs `Literal{val}`, `Unary{operator, expr}`,
`Binary{operator, left, right}`, `Grouping{expr}` are inlined into the
constructors. -/
inductive Expr where
  | L (val : String)
  | U (operator : Token) (expr : Expr)
  | B (operator : Token) (left : Expr) (right : Expr)
  | G (expr : Expr)
deriving DecidableEq

/-- The `Display` implementation for `Obj` in `interpreter.rs`: booleans
print as `true`/`false`, `Nil` as `nil`, strings in double quotes, numbers
by the float rendering. -/
def objDisplay (M : FloatModel) : Obj M.F → String
  | .BOOL b => if b then ("true") else ("false")
  | .Nil => ("nil")
  | .STRING s => ("\"") ++ s ++ ("\"")
  | .NUMBER v => M.render v

/-- `check_numbers` of `interpreter.rs`: arithmetic on two `NUMBER`s
applies the float operation; any other pairing returns
`Err(RuntimeError::new(op.lexeme, format!("Expected Numbers for - given {} {}", ...), op.line))`.
(The source's call sites pass the binary node's operator token.) -/
def check_numbers (M : FloatModel) (paris : Obj M.F × Obj M.F) (op : Token) : RtResult M.F :=
  match paris with
  | (.NUMBER left, .NUMBER right) =>
    match op.token_type with
    | .Minus => .ok (.NUMBER (M.sub left right))
    | .Plus => .ok (.NUMBER (M.add left right))
    | .Star => .ok (.NUMBER (M.mul left right))
    | .Slash => .ok (.NUMBER (M.div left right))
    | _ => .abort ("Error")
  | _ =>
    .err ⟨op.lexeme,
          ("Expected Numbers for - given ") ++ objDisplay M paris.1 ++ (" ") ++ objDisplay M paris.2,
          op.line⟩

/-- `concatenate_values` of `interpreter.rs`: `++` on two strings, or a
string and a number on either side; every other pairing is
`panic!("Expected two strings or a string an a integer")`. -/
def concatenate_values (M : FloatModel) (pairs : Obj M.F × Obj M.F) : RtResult M.F :=
  match pairs with
  | (.STRING v, .STRING v2) => .ok (.STRING (v ++ v2))
  | (.STRING v, .NUMBER v2) => .ok (.STRING (v ++ M.render v2))
  | (.NUMBER v, .STRING v2) => .ok (.STRING (M.render v ++ v2))
  | _ => .abort ("Expected two strings or a string an a integer")

/-- `determine_equality` of `interpreter.rs`.  Rust's `!=` on `f64` is the
negation of IEEE `==` (the `PartialEq::ne` of `f64`), embedded as
`!(M.beq v v2)`; on `Bool`/`String` it is structural disequality. -/
def determine_equality (M : FloatModel) (pair : Obj M.F × Obj M.F) (operator : TokenType) :
    RtResult M.F :=
  match operator with
  | .EqualEqual =>
    match pair with
    | (.BOOL v, .BOOL v2) => .ok (.BOOL (v == v2))
    | (.Nil, .Nil) => .ok (.BOOL true)
    | (.STRING v, .STRING v2) => .ok (.BOOL (v == v2))
    | (.NUMBER v, .NUMBER v2) => .ok (.BOOL (M.beq v v2))
    | _ => .ok (.BOOL false)
  | .BangEqual =>
    match pair with
    | (.BOOL v, .BOOL v2) => .ok (.BOOL (v != v2))
    | (.Nil, .Nil) => .ok (.BOOL false)
    | (.STRING v, .STRING v2) => .ok (.BOOL (v != v2))
    | (.NUMBER v, .NUMBER v2) => .ok (.BOOL (!(M.beq v v2)))
    | _ => .ok (.BOOL true)
  | _ => .abort ("Invalid token type. Expected \x27==\x27 or \x27!=\x27.")

/-- `determine_int_comparison` of `interpreter.rs`: ordering comparisons
on two `NUMBER`s; any other pairing is `panic!("Expected integer values")`. -/
def determine_int_comparison (M : FloatModel) (pair : Obj M.F × Obj M.F) (operator : TokenType) :
    RtResult M.F :=
  match pair with
  | (.NUMBER val, .NUMBER val2) =>
    match operator with
    | .Less => .ok (.BOOL (M.blt val val2))
    | .LessEqual => .ok (.BOOL (M.ble val val2))
    | .Greater => .ok (.BOOL (M.bgt val val2))
    | .GreaterEqual => .ok (.BOOL (M.bge val val2))
    | _ => .abort ("Expected boolean values")
  | _ => .abort ("Expected integer values")

/-- `is_truthy` of `interpreter.rs`: everything but `BOOL(false)` and
`Nil` is truthy. -/
def is_truthy {F : Type} : Obj F → Bool
  | .BOOL false => false
  | .Nil => false
  | _ => true

/-- Rust `str::parse::<bool>`: accepts exactly `"true"` and `"false"`. -/
def parseBool (s : String) : Option Bool :=
  if s = ("true") then some true else if s = ("false") then some false else none

/-- Rust `str::parse::<String>`: infallible (`FromStr` for `String` has
error type `Infallible`), always succeeding with the input itself. -/
def parseString (s : String) : Option String :=
  some s

/-- `visit_literal` of `interpreter.rs`: try `parse::<f64>`, then
`parse::<bool>`, then `parse::<String>` with the `"nil"`/`"true"`/`"false"`
special cases (the source's `match &s[..]`, written as equivalent
string-equality tests), else `panic!("Parsing error with: Literal")`. -/
def visit_literal (M : FloatModel) (val : String) : RtResult M.F :=
  match M.parse val with
  | some n => .ok (.NUMBER n)
  | none =>
    match parseBool val with
    | some b => .ok (.BOOL b)
    | none =>
      match parseString val with
      | some s =>
        if s = ("nil") then .ok .Nil
        else if s = ("true") then .ok (.BOOL true)
        else if s = ("false") then .ok (.BOOL false)
        else .ok (.STRING s)
      | none => .abort ("Parsing error with: Literal")

/-- The post-evaluation step of `visit_unary` in `interpreter.rs`: unary
`-` requires a `NUMBER` and multiplies by `-1.0`
(`Obj::NUMBER(-1.0 * v)`), otherwise
`panic!("Invalid unary expression.  Expected Number")`; `!` negates
truthiness; any other token is `panic!("Invalid token for Unary")`. -/
def unary_apply (M : FloatModel) (operator : Token) (e : Obj M.F) : RtResult M.F :=
  match operator.token_type with
  | .Minus =>
    match e with
    | .NUMBER v => .ok (.NUMBER (M.mul M.negOne v))
    | _ => .abort ("Invalid unary expression.  Expected Number")
  | .Bang => .ok (.BOOL (!(is_truthy e)))
  | _ => .abort ("Invalid token for Unary")

/-- The operator dispatch of `visit_binary` in `interpreter.rs`, applied
after both operands have been evaluated. -/
def apply_binary (M : FloatModel) (operator : Token) (left right : Obj M.F) : RtResult M.F :=
  match operator.token_type with
  | .Minus => check_numbers M (left, right) operator
  | .Plus => check_numbers M (left, right) operator
  | .Star => check_numbers M (left, right) operator
  | .Slash => check_numbers M (left, right) operator
  | .PlusPlus => concatenate_values M (left, right)
  | .EqualEqual => determine_equality M (left, right) .EqualEqual
  | .BangEqual => determine_equality M (left, right) .BangEqual
  | .Less => determine_int_comparison M (left, right) .Less
  | .LessEqual => determine_int_comparison M (left, right) .LessEqual
  | .Greater => determine_int_comparison M (left, right) .Greater
  | .GreaterEqual => determine_int_comparison M (left, right) .GreaterEqual
  | _ =>
    .err ⟨operator.lexeme, ("Expeceted expression, given ") ++ operator.lexeme, operator.line⟩

/-- The evaluator of `interpreter.rs` (`interpret_ast` / the
`Interpreter<Obj> for Expr` impl).  As in the source's `visit_binary`,
the RIGHT operand of a binary node is evaluated first, then the left. -/
def interpret (M : FloatModel) : Expr → RtResult M.F
  | .L val => visit_literal M val
  | .U operator expr => (interpret M expr).bind (fun e => unary_apply M operator e)
  | .B operator left right =>
    (interpret M right).bind (fun r =>
      (interpret M left).bind (fun l => apply_binary M operator l r))
  | .G expr => interpret M expr

/-- Modelled from the spec: the documented/intended evaluation order for
binary nodes is LEFT operand first, then right (spec section 4.2
dispatch rule); identical to `interpret` on every other node kind. -/
def interpretLTR (M : FloatModel) : Expr → RtResult M.F
  | .L val => visit_literal M val
  | .U operator expr => (interpretLTR M expr).bind (fun e => unary_apply M operator e)
  | .B operator left right =>
    (interpretLTR M left).bind (fun l =>
      (interpretLTR M right).bind (fun r => apply_binary M operator l r))
  | .G expr => interpretLTR M expr

/-- A simplified executable instance of Rust's `str::parse::<f64>` for the
concrete inputs of this development: `"NaN"` parses to the NaN element
(as in Rust), the decimal integer literals used below parse to the
corresponding number, and everything else (including `"true"`, `"false"`,
`"nil"` and non-numeric text, which Rust's float grammar also rejects)
fails. -/
def qfParse (s : String) : Option (Option ℚ) :=
  if s = ("NaN") then some none
  else if s = ("0") then some (some 0)
  else if s = ("1") then some (some 1)
  else if s = ("2") then some (some 2)
  else if s = ("3") then some (some 3)
  else if s = ("4") then some (some 4)
  else if s = ("7") then some (some 7)
  else none

/-- Rendering for the concrete float instance: NaN prints as `"NaN"`,
integral rationals print without a fractional part (as Rust's `f64`
`Display` prints `1.0` as `"1"`). -/
def qfRender (a : Option ℚ) : String :=
  match a with
  | none => ("NaN")
  | some q => if q.den = 1 then toString q.num else toString q

/-- A concrete, executable `FloatModel`: rationals extended with a NaN
element (`none`), mirroring the IEEE-754 behaviours the interpreter
relies on — every comparison involving NaN (including `NaN == NaN`) is
false, arithmetic involving NaN gives NaN, and division by zero gives a
non-numeric result (NaN here, standing for the IEEE ±inf/NaN family). -/
def QF : FloatModel where
  F := Option ℚ
  deq := inferInstance
  add := fun a b =>
    match a, b with
    | some x, some y => some (x + y)
    | _, _ => none
  sub := fun a b =>
    match a, b with
    | some x, some y => some (x - y)
    | _, _ => none
  mul := fun a b =>
    match a, b with
    | some x, some y => some (x * y)
    | _, _ => none
  div := fun a b =>
    match a, b with
    | some x, some y => if y = 0 then none else some (x / y)
    | _, _ => none
  negOne := some (-1)
  beq := fun a b =>
    match a, b with
    | some x, some y => decide (x = y)
    | _, _ => false
  blt := fun a b =>
    match a, b with
    | some x, some y => decide (x < y)
    | _, _ => false
  ble := fun a b =>
    match a, b with
    | some x, some y => decide (x ≤ y)
    | _, _ => false
  bgt := fun a b =>
    match a, b with
    | some x, some y => decide (y < x)
    | _, _ => false
  bge := fun a b =>
    match a, b with
    | some x, some y => decide (y ≤ x)
    | _, _ => false
  render := qfRender
  parse := qfParse

/-! ## General lemmas -/

/-- `bind` succeeds exactly when its argument succeeds and the
continuation succeeds on the produced value. -/
theorem RtResult.bind_eq_ok {F : Type} (x : RtResult F) (f : Obj F → RtResult F) (o : Obj F) :
    x.bind f = .ok o ↔ ∃ v, x = .ok v ∧ f v = .ok o := by
  cases x <;> simp [RtResult.bind]

/-! ## Claims -/

/-- C2: literal classification precedence — text that parses as a float
yields `NUMBER` of the parsed value; otherwise exact `"true"`/`"false"`
yields the corresponding `BOOL`; otherwise exact `"nil"` yields `Nil`;
otherwise `STRING` of the raw text itself. -/
theorem c2_literal_classification (M : FloatModel) (val : String) :
    (∀ n, M.parse val = some n → visit_literal M val = .ok (.NUMBER n)) ∧
    (M.parse val = none → val = ("true") → visit_literal M val = .ok (.BOOL true)) ∧
    (M.parse val = none → val = ("false") → visit_literal M val = .ok (.BOOL false)) ∧
    (M.parse val = none → val = ("nil") → visit_literal M val = .ok .Nil) ∧
    (M.parse val = none → val ≠ ("true") → val ≠ ("false") → val ≠ ("nil") →
      visit_literal M val = .ok (.STRING val)) := by
  refine ⟨?_, ?_, ?_, ?_, ?_⟩
  · intro n h
    unfold visit_literal
    rw [h]
  · intro h hv
    subst hv
    unfold visit_literal
    rw [h]
    rfl
  · intro h hv
    subst hv
    unfold visit_literal
    rw [h]
    rfl
  · intro h hv
    subst hv
    unfold visit_literal
    rw [h]
    rfl
  · intro h h1 h2 h3
    unfold visit_literal parseBool parseString
    rw [h, if_neg h1, if_neg h2]
    show (if val = ("nil") then RtResult.ok Obj.Nil
      else if val = ("true") then RtResult.ok (Obj.BOOL true)
      else if val = ("false") then RtResult.ok (Obj.BOOL false)
      else RtResult.ok (Obj.STRING val)) = RtResult.ok (Obj.STRING val)
    rw [if_neg h3, if_neg h1, if_neg h2]

/-- C2 witness: concrete classifications in the concrete float model. -/
theorem c2_literal_classification_witness :
    visit_literal QF ("true") = .ok (.BOOL true) ∧
    visit_literal QF ("7") = .ok (.NUMBER (some 7)) ∧
    visit_literal QF ("a") = .ok (.STRING ("a")) :=
  ⟨(c2_literal_classification QF ("true")).2.1 rfl rfl,
   (c2_literal_classification QF ("7")).1 (some 7) rfl,
   (c2_literal_classification QF ("a")).2.2.2.2 rfl (by decide) (by decide) (by decide)⟩

/-- C10: literal evaluation is total — for every literal text the
classifier produces some value, so the final `panic!` branch of
`visit_literal` is unreachable and literal evaluation never errors and
never aborts. -/
theorem c10_literal_total (M : FloatModel) (val : String) :
    ∃ o : Obj M.F, visit_literal M val = .ok o := by
  unfold visit_literal
  cases hp : M.parse val with
  | some n => exact ⟨.NUMBER n, rfl⟩
  | none =>
    cases hb : parseBool val with
    | some b => exact ⟨.BOOL b, rfl⟩
    | none =>
      simp only [parseString]
      split_ifs <;> exact ⟨_, rfl⟩

/-- C3: arithmetic on two `NUMBER`s applies the corresponding float
operation and always succeeds (also for division, whatever the divisor:
the IEEE-754 quotient — ±infinity or NaN for a zero divisor — is
returned, never an error); any operand pair that is not two `NUMBER`s
yields a `RuntimeError` carrying the operator lexeme, the rendering of
both offending operands, and the line — no coercion. -/
theorem c3_arithmetic (M : FloatModel) :
    (∀ (a b : M.F) (lx : String) (ln : Nat),
      check_numbers M (.NUMBER a, .NUMBER b) ⟨.Minus, lx, ln⟩ = .ok (.NUMBER (M.sub a b))) ∧
    (∀ (a b : M.F) (lx : String) (ln : Nat),
      check_numbers M (.NUMBER a, .NUMBER b) ⟨.Plus, lx, ln⟩ = .ok (.NUMBER (M.add a b))) ∧
    (∀ (a b : M.F) (lx : String) (ln : Nat),
      check_numbers M (.NUMBER a, .NUMBER b) ⟨.Star, lx, ln⟩ = .ok (.NUMBER (M.mul a b))) ∧
    (∀ (a b : M.F) (lx : String) (ln : Nat),
      check_numbers M (.NUMBER a, .NUMBER b) ⟨.Slash, lx, ln⟩ = .ok (.NUMBER (M.div a b))) ∧
    (∀ (l r : Obj M.F) (op : Token), (¬ ∃ x y, l = Obj.NUMBER x ∧ r = Obj.NUMBER y) →
      check_numbers M (l, r) op =
        .err ⟨op.lexeme,
              ("Expected Numbers for - given ") ++ objDisplay M l ++ (" ") ++ objDisplay M r,
              op.line⟩) := by
  refine ⟨fun a b lx ln => rfl, fun a b lx ln => rfl, fun a b lx ln => rfl,
          fun a b lx ln => rfl, ?_⟩
  intro l r op h
  cases l <;> cases r <;> first
    | rfl
    | exact absurd ⟨_, _, rfl, rfl⟩ h

/-- C3 witness: a mismatched arithmetic application returns the
structured error. -/
theorem c3_arithmetic_witness :
    check_numbers QF (.BOOL true, .NUMBER (some 1)) ⟨.Plus, ("+"), 1⟩ =
      .err ⟨("+"), ("Expected Numbers for - given true 1"), 1⟩ :=
  (c3_arithmetic QF).2.2.2.2 (.BOOL true) (.NUMBER (some 1)) ⟨.Plus, ("+"), 1⟩
    (by rintro ⟨x, y, hx, hy⟩; cases hx)

/-- C4: `==` and `!=` are total over every pairing of value kinds and
never produce an error: `!=` is always the boolean negation of `==`,
same-kind pairs compare by value, `Nil` equals `Nil`, and every
cross-kind pairing is never equal under `==` and always unequal under
`!=`. -/
theorem c4_equality_total (M : FloatModel) :
    (∀ a b : Obj M.F, ∃ r : Bool,
      determine_equality M (a, b) .EqualEqual = .ok (.BOOL r) ∧
      determine_equality M (a, b) .BangEqual = .ok (.BOOL (!r))) ∧
    (∀ x y, determine_equality M (.BOOL x, .BOOL y) .EqualEqual = .ok (.BOOL (x == y))) ∧
    (∀ s t, determine_equality M (.STRING s, .STRING t) .EqualEqual = .ok (.BOOL (s == t))) ∧
    (∀ x y, determine_equality M (.NUMBER x, .NUMBER y) .EqualEqual = .ok (.BOOL (M.beq x y))) ∧
    (determine_equality M ((.Nil : Obj M.F), .Nil) .EqualEqual = .ok (.BOOL true) ∧
      determine_equality M ((.Nil : Obj M.F), .Nil) .BangEqual = .ok (.BOOL false)) ∧
    (∀ a b : Obj M.F, a.kind ≠ b.kind →
      determine_equality M (a, b) .EqualEqual = .ok (.BOOL false) ∧
      determine_equality M (a, b) .BangEqual = .ok (.BOOL true)) := by
  refine ⟨?_, fun x y => rfl, fun s t => rfl, fun x y => rfl, ⟨rfl, rfl⟩, ?_⟩
  · intro a b
    cases a <;> cases b <;> exact ⟨_, rfl, rfl⟩
  · intro a b h
    cases a <;> cases b <;> first
      | exact absurd rfl h
      | exact ⟨rfl, rfl⟩

/-- C4 witness: a concrete cross-kind pairing. -/
theorem c4_equality_total_witness :
    determine_equality QF (.NUMBER (some 1), .STRING ("1")) .EqualEqual = .ok (.BOOL false) ∧
    determine_equality QF (.NUMBER (some 1), .STRING ("1")) .BangEqual = .ok (.BOOL true) :=
  (c4_equality_total QF).2.2.2.2.2 (.NUMBER (some 1)) (.STRING ("1")) (by decide)

/-- C5: truthiness is total — `BOOL false` and `Nil` are falsy, every
other value (including any number and any string) is truthy — and unary
`!` maps any successfully evaluated operand `v` to
`BOOL (!is_truthy v)` without error. -/
theorem c5_truthiness (M : FloatModel) :
    (is_truthy (Obj.BOOL false : Obj M.F) = false) ∧
    (is_truthy (Obj.Nil : Obj M.F) = false) ∧
    (is_truthy (Obj.BOOL true : Obj M.F) = true) ∧
    (∀ s, is_truthy (Obj.STRING s : Obj M.F) = true) ∧
    (∀ v : M.F, is_truthy (Obj.NUMBER v) = true) ∧
    (∀ (e : Expr) (v : Obj M.F) (lx : String) (ln : Nat), interpret M e = .ok v →
      interpret M (.U ⟨.Bang, lx, ln⟩ e) = .ok (.BOOL (!(is_truthy v)))) := by
  refine ⟨rfl, rfl, rfl, fun s => rfl, fun v => rfl, ?_⟩
  intro e v lx ln h
  show (interpret M e).bind _ = _
  rw [h]
  rfl

/-- C5 witness: `!nil` evaluates to `true` (`Nil` is falsy, `Number 0`
and the empty string are truthy). -/
theorem c5_truthiness_witness :
    interpret QF (.U ⟨.Bang, ("!"), 1⟩ (.L ("nil"))) = .ok (.BOOL true) ∧
    is_truthy (Obj.NUMBER (some 0) : Obj QF.F) = true ∧
    is_truthy (Obj.STRING ("") : Obj QF.F) = true :=
  ⟨(c5_truthiness QF).2.2.2.2.2 (.L ("nil")) .Nil ("!") 1 rfl,
   (c5_truthiness QF).2.2.2.2.1 (some 0),
   (c5_truthiness QF).2.2.2.1 ("")⟩

/-- C6: `++` concatenates two strings; with a number on the right it
appends the number's rendering to the string; with a number on the left
it prepends the number's rendering to the string.  On the concrete
model, `"a" ++ 1 = "a1"`, `1 ++ "a" = "1a"`, `"a" ++ "b" = "ab"`. -/
theorem c6_concatenation (M : FloatModel) :
    (∀ s t, concatenate_values M (.STRING s, .STRING t) = .ok (.STRING (s ++ t))) ∧
    (∀ s v, concatenate_values M (.STRING s, .NUMBER v) = .ok (.STRING (s ++ M.render v))) ∧
    (∀ v s, concatenate_values M (.NUMBER v, .STRING s) = .ok (.STRING (M.render v ++ s))) ∧
    concatenate_values QF (.STRING ("a"), .NUMBER (some 1)) = .ok (.STRING ("a1")) ∧
    concatenate_values QF (.NUMBER (some 1), .STRING ("a")) = .ok (.STRING ("1a")) ∧
    concatenate_values QF (.STRING ("a"), .STRING ("b")) = .ok (.STRING ("ab")) :=
  ⟨fun s t => rfl, fun s v => rfl, fun v s => rfl, rfl, rfl, rfl⟩

/-- C1: contrary to the claim, a type-mismatched ordering comparison and
a type-mismatched concatenation do NOT return a `RuntimeError`: both
abort (Rust `panic!`).  A mismatched arithmetic application, by
contrast, does use the structured error channel. -/
theorem c1_mismatch_aborts :
    interpret QF (.B ⟨.Less, ("<"), 1⟩ (.L ("a")) (.L ("b"))) =
      .abort ("Expected integer values") ∧
    interpret QF (.B ⟨.PlusPlus, ("++"), 1⟩ (.L ("true")) (.L ("1"))) =
      .abort ("Expected two strings or a string an a integer") ∧
    interpret QF (.B ⟨.Plus, ("+"), 1⟩ (.L ("true")) (.L ("1"))) =
      .err ⟨("+"), ("Expected Numbers for - given true 1"), 1⟩ :=
  ⟨rfl, rfl, rfl⟩

/-- C7: unary `-` on a `NUMBER` yields the negated number
(`-1.0 * v` in the source), but on any other operand kind it does NOT
signal a `RuntimeError`: it aborts (Rust `panic!`). -/
theorem c7_unary_minus_abort :
    interpret QF (.U ⟨.Minus, ("-"), 1⟩ (.L ("true"))) =
      .abort ("Invalid unary expression.  Expected Number") ∧
    (∀ (M : FloatModel) (lx : String) (ln : Nat) (v : M.F),
      unary_apply M ⟨.Minus, lx, ln⟩ (.NUMBER v) = .ok (.NUMBER (M.mul M.negOne v))) :=
  ⟨rfl, fun M lx ln v => rfl⟩

/-- C8 counterexample: equality is NOT reflexive at `NUMBER NaN` — the
float equality of the source (IEEE-754 `==`) makes `NaN == NaN` false,
and the literal `"NaN"` parses to a NaN number, so evaluating
`NaN == NaN` yields `BOOL false` (and `NaN != NaN` yields `BOOL true`). -/
theorem c8_nan_counterexample :
    determine_equality QF (.NUMBER none, .NUMBER none) .EqualEqual = .ok (.BOOL false) ∧
    determine_equality QF (.NUMBER none, .NUMBER none) .BangEqual = .ok (.BOOL true) ∧
    interpret QF (.B ⟨.EqualEqual, ("=="), 1⟩ (.L ("NaN")) (.L ("NaN"))) = .ok (.BOOL false) :=
  ⟨rfl, rfl, rfl⟩

/-- C8 (amended): equality is reflexive for every `BOOL`, `STRING` and
`Nil` value, and for every `NUMBER v` whose float equality is reflexive
(every non-NaN float): `v == v` yields `BOOL true` and `v != v` yields
`BOOL false`. -/
theorem c8_equality_reflexive_amended (M : FloatModel) (v : Obj M.F)
    (h : ∀ x, v = .NUMBER x → M.beq x x = true) :
    determine_equality M (v, v) .EqualEqual = .ok (.BOOL true) ∧
    determine_equality M (v, v) .BangEqual = .ok (.BOOL false) := by
  cases v with
  | BOOL b => cases b <;> exact ⟨rfl, rfl⟩
  | STRING s => constructor <;> simp [determine_equality]
  | NUMBER x =>
    have hx := h x rfl
    constructor <;> simp [determine_equality, hx]
  | Nil => exact ⟨rfl, rfl⟩

/-- C8 witness: reflexivity at a concrete non-NaN number. -/
theorem c8_equality_reflexive_amended_witness :
    determine_equality QF (.NUMBER (some 1), .NUMBER (some 1)) .EqualEqual = .ok (.BOOL true) ∧
    determine_equality QF (.NUMBER (some 1), .NUMBER (some 1)) .BangEqual = .ok (.BOOL false) :=
  c8_equality_reflexive_amended QF (.NUMBER (some 1)) (fun x hx => by cases hx; decide)

/-- A binary tree whose two operands both fail, with distinct errors:
`(true + 1) + ("a" + 1)`. -/
def orderProbe : Expr :=
  .B ⟨.Plus, ("+"), 1⟩
    (.B ⟨.Plus, ("+"), 2⟩ (.L ("true")) (.L ("1")))
    (.B ⟨.Plus, ("+"), 3⟩ (.L ("a")) (.L ("1")))

/-- C9 counterexample: the implemented right-then-left order is
distinguishable from left-to-right when both operands fail — it reports
the right operand's error where left-to-right reports the left
operand's, so the two orders do not yield the same `Result` on every
tree. -/
theorem c9_order_counterexample :
    interpret QF orderProbe =
      .err ⟨("+"), ("Expected Numbers for - given \"a\" 1"), 3⟩ ∧
    interpretLTR QF orderProbe =
      .err ⟨("+"), ("Expected Numbers for - given true 1"), 2⟩ ∧
    interpret QF orderProbe ≠ interpretLTR QF orderProbe := by
  refine ⟨rfl, rfl, fun h => ?_⟩
  have h2 : (3 : Nat) = 2 :=
    congrArg (fun x : RtResult QF.F => match x with | .err e => e.line | _ => 0) h
  exact absurd h2 (by decide)

/-- C9 (amended): the two operand-evaluation orders agree on every
successful evaluation — for every tree and value, right-then-left
yields `ok v` exactly when left-to-right does (so they are
distinguishable only by which failure is reported when evaluation
fails). -/
theorem c9_order_agrees_on_success (M : FloatModel) (e : Expr) (o : Obj M.F) :
    interpret M e = .ok o ↔ interpretLTR M e = .ok o := by
  induction e generalizing o with
  | L val => exact Iff.rfl
  | U op sub ih =>
    show (interpret M sub).bind _ = _ ↔ (interpretLTR M sub).bind _ = _
    rw [RtResult.bind_eq_ok, RtResult.bind_eq_ok]
    constructor
    · rintro ⟨v, hv, hk⟩
      exact ⟨v, (ih v).mp hv, hk⟩
    · rintro ⟨v, hv, hk⟩
      exact ⟨v, (ih v).mpr hv, hk⟩
  | B op l r ihl ihr =>
    show ((interpret M r).bind fun rv => (interpret M l).bind fun lv =>
        apply_binary M op lv rv) = _ ↔
      ((interpretLTR M l).bind fun lv => (interpretLTR M r).bind fun rv =>
        apply_binary M op lv rv) = _
    simp only [RtResult.bind_eq_ok]
    constructor
    · rintro ⟨rv, hr, lv, hl, hap⟩
      exact ⟨lv, (ihl lv).mp hl, rv, (ihr rv).mp hr, hap⟩
    · rintro ⟨lv, hl, rv, hr, hap⟩
      exact ⟨rv, (ihr rv).mpr hr, lv, (ihl lv).mpr hl, hap⟩
  | G sub ih => exact ih o

/-- C9 witness: a successfully evaluating tree gives the same value in
the left-to-right order. -/
theorem c9_order_agrees_on_success_witness :
    interpretLTR QF (.B ⟨.EqualEqual, ("=="), 1⟩ (.L ("1")) (.L ("1"))) = .ok (.BOOL true) :=
  (c9_order_agrees_on_success QF (.B ⟨.EqualEqual, ("=="), 1⟩ (.L ("1")) (.L ("1")))
    (.BOOL true)).mp rfl

end Flax
